import Mathlib

/-!
Verification of the request-correlation and error-normalization pipeline of
the AINative backend, as implemented in
`backend/src/ainative/app/middleware/observability.py`
(`ObservabilityMiddleware.dispatch`) and
`backend/src/ainative/app/exceptions.py` (the four exception handlers and
`AppException`).

The embedding is shallow: Python dict/header maps become association lists,
`request.state` and `app.state` become explicit record values threaded
through the functions, `uuid.uuid4()` is modelled as a pure function of the
16 random bytes it draws, and an `async` function that may raise becomes a
function into `Except`.
-/

set_option autoImplicit false

namespace AINative

/-! ## Header maps and dictionaries

Python's `request.headers.get(k)` / `response.headers[k] = v` and plain
`dict` assignment, modelled as association lists with first-match lookup
and replace-first insertion. -/

/-- Python `headers.get(k)`: first value bound to `k`, if any. -/
def headerGet : List (String × String) → String → Option String
  | [], _ => none
  | (k', v') :: rest, k => if k' = k then some v' else headerGet rest k

/-- Python `headers[k] = v` / `d[k] = v`: replace the binding of `k`, or append it. -/
def headerSet : List (String × String) → String → String → List (String × String)
  | [], k, v => [(k, v)]
  | (k', v') :: rest, k, v =>
    if k' = k then (k, v) :: rest else (k', v') :: headerSet rest k v

/-! ## UUID version 4

`uuid.uuid4()` draws 16 random bytes, forces the version nibble of byte 6 to
`4` and the two variant bits of byte 8 to `10`, and renders the result as
lowercase hex in the 8-4-4-4-12 dashed layout. -/

/-- The 16 random bytes drawn by `uuid.uuid4()` (each used modulo 256). -/
structure RandomBytes where
  b0 : Nat
  b1 : Nat
  b2 : Nat
  b3 : Nat
  b4 : Nat
  b5 : Nat
  b6 : Nat
  b7 : Nat
  b8 : Nat
  b9 : Nat
  b10 : Nat
  b11 : Nat
  b12 : Nat
  b13 : Nat
  b14 : Nat
  b15 : Nat
deriving DecidableEq

/-- Lowercase hex digit of `n % 16`. -/
def hexDigit (n : Nat) : Char :=
  if n % 16 < 10 then Char.ofNat (48 + n % 16) else Char.ofNat (87 + n % 16)

/-- The two lowercase hex digits of a byte. -/
def byteHexChars (b : Nat) : List Char :=
  [hexDigit (b / 16), hexDigit b]

/-- The 36 characters of `str(uuid.UUID(bytes=..., version=4))`: byte 6 is
`(b6 mod 16) + 0x40` (version nibble forced to 4) and byte 8 is
`(b8 mod 64) + 0x80` (variant bits forced to `10`). -/
def uuidChars (r : RandomBytes) : List Char :=
  byteHexChars (r.b0 % 256) ++ byteHexChars (r.b1 % 256) ++
  byteHexChars (r.b2 % 256) ++ byteHexChars (r.b3 % 256) ++
  ['-'] ++ byteHexChars (r.b4 % 256) ++ byteHexChars (r.b5 % 256) ++
  ['-'] ++ byteHexChars (r.b6 % 16 + 64) ++ byteHexChars (r.b7 % 256) ++
  ['-'] ++ byteHexChars (r.b8 % 64 + 128) ++ byteHexChars (r.b9 % 256) ++
  ['-'] ++ byteHexChars (r.b10 % 256) ++ byteHexChars (r.b11 % 256) ++
  byteHexChars (r.b12 % 256) ++ byteHexChars (r.b13 % 256) ++
  byteHexChars (r.b14 % 256) ++ byteHexChars (r.b15 % 256)

/-- The string `str(uuid.uuid4())` as a function of the random bytes drawn. -/
def uuid4OfBytes (r : RandomBytes) : String :=
  String.mk (uuidChars r)

/-- A character is a lowercase hex digit. -/
def isHexChar (c : Char) : Bool :=
  (decide ('0' ≤ c) && decide (c ≤ '9')) || (decide ('a' ≤ c) && decide (c ≤ 'f'))

/-- Canonical dashed UUID layout: 36 characters, dashes at offsets
8, 13, 18 and 23, lowercase hex everywhere else. -/
def uuidShape (cs : List Char) : Bool :=
  match cs with
  | c0 :: c1 :: c2 :: c3 :: c4 :: c5 :: c6 :: c7 :: d1 ::
    c8 :: c9 :: c10 :: c11 :: d2 ::
    c12 :: c13 :: c14 :: c15 :: d3 ::
    c16 :: c17 :: c18 :: c19 :: d4 ::
    c20 :: c21 :: c22 :: c23 :: c24 :: c25 :: c26 :: c27 ::
    c28 :: c29 :: c30 :: c31 :: [] =>
    (d1 == '-') && (d2 == '-') && (d3 == '-') && (d4 == '-') &&
    ([c0, c1, c2, c3, c4, c5, c6, c7,
      c8, c9, c10, c11, c12, c13, c14, c15,
      c16, c17, c18, c19, c20, c21, c22, c23,
      c24, c25, c26, c27, c28, c29, c30, c31].all isHexChar)
  | _ => false

/-- Syntactically valid dashed UUID string. -/
def isValidUUID (s : String) : Bool :=
  uuidShape s.data

/-- Whether `s` ends with the text `t` (over the character lists). -/
def strEndsWith (s t : String) : Bool :=
  List.isSuffixOf t.data s.data

/-- Valid UUID whose version nibble is `4` and whose variant character is
one of `8`, `9`, `a`, `b` (RFC 4122 version-4 layout). -/
def isUUIDv4 (s : String) : Bool :=
  isValidUUID s && (s.data.getD 14 '?' == '4') &&
    ([('8' : Char), '9', 'a', 'b'].contains (s.data.getD 19 '?'))

/-! ## Requests, responses and application state

`backend/src/ainative/app/exceptions.py` and the middleware read
`request.headers`, `request.url`, `request.state.correlation_id` and
`request.app.state`; exception handlers return `JSONResponse` objects. -/

/-- Model of `request.state`: the only attribute this slice touches is
`correlation_id`; `none` models the attribute being absent, so that
`getattr(request.state, "correlation_id", default)` is `Option.getD`. -/
structure RequestState where
  correlation_id : Option String
deriving DecidableEq

/-- Model of `request.url`; `str(request.url)` renders scheme, host, path and the
optional query string. -/
structure URL where
  scheme : String
  host : String
  path : String
  query : String
deriving DecidableEq

/-- The string `str(request.url)`. -/
def URL.toString (u : URL) : String :=
  u.scheme ++ "://" ++ u.host ++ u.path ++ (if u.query = "" then "" else "?" ++ u.query)

/-- The parts of a Starlette `Request` that this slice reads. -/
structure Request where
  headers : List (String × String)
  url : URL
  state : RequestState
deriving DecidableEq

/-- A per-field error object as produced by Pydantic's
`ValidationError.errors()` (field path `loc`, error `type`, message). -/
structure FieldError where
  type : String
  loc : List String
  msg : String
deriving DecidableEq

/-- The `detail` field of a problem-details body: either a string or the
validator's list of per-field error objects. -/
inductive Detail where
  | str (s : String)
  | fieldErrors (es : List FieldError)
deriving DecidableEq

/-- The problem-details JSON body built by the exception handlers. The
source key `instance` is a Lean keyword, rendered here as `instance_`. -/
structure ProblemDetails where
  type : String
  title : String
  status : Nat
  detail : Detail
  instance_ : String
  correlation_id : String
deriving DecidableEq

/-- A `JSONResponse(status_code=..., content=...)` as returned by the
handlers. -/
structure JSONResponse where
  status_code : Nat
  content : ProblemDetails
deriving DecidableEq

/-- The `request.app.state.last_error_log` dict written (only when a test
installed the attribute) by each handler; one constructor per handler. -/
inductive ErrorLog where
  | generic (message : String) (excMsg : String) (correlation_id : String)
      (error_details : ProblemDetails)
  | http (excDetail : String) (status_code : Nat) (correlation_id : String)
  | app (excDetail : String) (status_code : Nat) (correlation_id : String)
  | validation (errors : List FieldError) (correlation_id : String)
deriving DecidableEq

/-- Model of `request.app.state`: process-wide state shared by all requests. Each
field is `none` when the attribute does not exist on the object. -/
structure AppState where
  logger_context : Option (List (String × String))
  otel_propagated : Option Bool
  last_error_log : Option ErrorLog
deriving DecidableEq

/-- A Starlette `Response` as the middleware sees it: status, headers and,
when the body is a problem-details JSON document, that body. -/
structure Response where
  status_code : Nat
  headers : List (String × String)
  body : Option ProblemDetails
deriving DecidableEq

/-! ## Exceptions -/

/-- An arbitrary unhandled `Exception`, identified by its message. -/
structure GenericExc where
  msg : String
deriving DecidableEq

/-- FastAPI's `HTTPException(status_code=..., detail=...)`. -/
structure HTTPException where
  status_code : Nat
  detail : String
deriving DecidableEq

def HTTP_500_INTERNAL_SERVER_ERROR : Nat := 500

def HTTP_422_UNPROCESSABLE_ENTITY : Nat := 422

/-- Class `AppException` from `exceptions.py`: a detail message and a status
code. -/
structure AppException where
  detail : String
  status_code : Nat
deriving DecidableEq

/-- Constructor `AppException.__init__(detail, status_code=HTTP_500_INTERNAL_SERVER_ERROR)`:
the constructor with its default status code. -/
def AppException.make (detail : String)
    (status_code : Nat := HTTP_500_INTERNAL_SERVER_ERROR) : AppException :=
  { detail := detail, status_code := status_code }

/-- Pydantic's `ValidationError`; `errors` is what `exc.errors()` returns. -/
structure ValidationError where
  errors : List FieldError
deriving DecidableEq

/-- The value `getattr(request.state, "correlation_id", dflt)`. -/
def getattrCorrelation (st : RequestState) (dflt : String) : String :=
  st.correlation_id.getD dflt

/-! ## The four exception handlers (`exceptions.py`)

Each handler is an async function of `(request, exc)`; mutation of
`request.app.state.last_error_log` is made explicit by threading
`AppState`. Logger calls have no observable effect in this model. -/

/-- Handler `generic_exception_handler`: any unhandled `Exception` becomes a 500
problem-details response with a fixed generic detail; note the `"N/A"`
fallback for a missing correlation id. -/
def generic_exception_handler (req : Request) (app : AppState) (exc : GenericExc) :
    JSONResponse × AppState :=
  let correlation_id := getattrCorrelation req.state "N/A"
  let error_details : ProblemDetails :=
    { type := "/errors/internal-server-error"
      title := "Internal Server Error"
      status := HTTP_500_INTERNAL_SERVER_ERROR
      detail := Detail.str "An unexpected error occurred."
      instance_ := URL.toString req.url
      correlation_id := correlation_id }
  let logEntry :=
    ErrorLog.generic "Unhandled generic exception caught by handler"
      exc.msg correlation_id error_details
  let app' :=
    match app.last_error_log with
    | some _ => { app with last_error_log := some logEntry }
    | none => app
  ({ status_code := HTTP_500_INTERNAL_SERVER_ERROR, content := error_details }, app')

/-- Handler `http_exception_handler`: an `HTTPException` keeps its own status code
and detail under type `/errors/http/{status_code}`. -/
def http_exception_handler (req : Request) (app : AppState) (exc : HTTPException) :
    JSONResponse × AppState :=
  let correlation_id := getattrCorrelation req.state "not-set"
  let logEntry := ErrorLog.http exc.detail exc.status_code correlation_id
  let app' :=
    match app.last_error_log with
    | some _ => { app with last_error_log := some logEntry }
    | none => app
  ({ status_code := exc.status_code
     content :=
      { type := "/errors/http/" ++ toString exc.status_code
        title := "HTTP Error"
        status := exc.status_code
        detail := Detail.str exc.detail
        instance_ := URL.toString req.url
        correlation_id := correlation_id } }, app')

/-- Handler `app_exception_handler`: an `AppException` keeps its own status code
and detail under type `/errors/application-specific-error`. -/
def app_exception_handler (req : Request) (app : AppState) (exc : AppException) :
    JSONResponse × AppState :=
  let correlation_id := getattrCorrelation req.state "not-set"
  let logEntry := ErrorLog.app exc.detail exc.status_code correlation_id
  let app' :=
    match app.last_error_log with
    | some _ => { app with last_error_log := some logEntry }
    | none => app
  ({ status_code := exc.status_code
     content :=
      { type := "/errors/application-specific-error"
        title := "Application Specific Error"
        status := exc.status_code
        detail := Detail.str exc.detail
        instance_ := URL.toString req.url
        correlation_id := correlation_id } }, app')

/-- Handler `validation_exception_handler`: a Pydantic `ValidationError` becomes a
422 response whose detail is `exc.errors()` verbatim. -/
def validation_exception_handler (req : Request) (app : AppState) (exc : ValidationError) :
    JSONResponse × AppState :=
  let correlation_id := getattrCorrelation req.state "not-set"
  let logEntry := ErrorLog.validation exc.errors correlation_id
  let app' :=
    match app.last_error_log with
    | some _ => { app with last_error_log := some logEntry }
    | none => app
  ({ status_code := HTTP_422_UNPROCESSABLE_ENTITY
     content :=
      { type := "/errors/validation-error"
        title := "Validation Error"
        status := HTTP_422_UNPROCESSABLE_ENTITY
        detail := Detail.fieldErrors exc.errors
        instance_ := URL.toString req.url
        correlation_id := correlation_id } }, app')

/-! ## The observability middleware (`middleware/observability.py`)

`ObservabilityMiddleware.dispatch(request, call_next)`:
read or generate the correlation id, store it in `request.state`, mark the
test-stub fields on `request.app.state`, await `call_next`, and set the
`X-Correlation-ID` response header. `call_next` is modelled as a function
that may raise (`Except.error`); `uuid.uuid4()` as a function of the random
bytes drawn for this request. There is no `try`/`except` around
`call_next` in the source, so an error from `next` passes through. -/

/-- Step `correlation_id = request.headers.get("X-Correlation-ID")`, replaced by
`str(uuid.uuid4())` when the header is absent or empty (`if not
correlation_id`). -/
def establishCorrelationId (fresh : RandomBytes) (req : Request) : String :=
  match headerGet req.headers "X-Correlation-ID" with
  | none => uuid4OfBytes fresh
  | some s => if s = "" then uuid4OfBytes fresh else s

/-- Step `request.state.correlation_id = correlation_id`: the request as the
downstream stage receives it. -/
def establishRequest (fresh : RandomBytes) (req : Request) : Request :=
  { req with state := { correlation_id := some (establishCorrelationId fresh req) } }

/-- The writes to `request.app.state`: `logger_context` is created when
absent and its `"correlation_id"` key set, and `otel_propagated` is
created when absent and then set to `True`. -/
def markAppState (cid : String) (app : AppState) : AppState :=
  { app with
    logger_context := some (headerSet (app.logger_context.getD []) "correlation_id" cid)
    otel_propagated := some true }

/-- Method `ObservabilityMiddleware.dispatch`. -/
def dispatch (next : Request → AppState → Except GenericExc (Response × AppState))
    (fresh : RandomBytes) (req : Request) (app : AppState) :
    Except GenericExc (Response × AppState) :=
  let cid := establishCorrelationId fresh req
  match next (establishRequest fresh req) (markAppState cid app) with
  | Except.ok (resp, app') =>
    Except.ok ({ resp with headers := headerSet resp.headers "X-Correlation-ID" cid }, app')
  | Except.error e => Except.error e

/-! ## The request pipeline of the application

The repository's test app (`tests/infrastructure/
test_observability_middleware.py`) registers the middleware with
`add_middleware` and the four handlers with `add_exception_handler`.
Starlette's `build_middleware_stack` (`starlette/applications.py`) wires
them as: `ServerErrorMiddleware` holding the `Exception` handler
OUTERMOST, then the user middleware (`ObservabilityMiddleware`), then
`ExceptionMiddleware` holding the three typed handlers
(`HTTPException`, `AppException`, `ValidationError`) innermost, then the
route. Consequently a generic unhandled exception propagates out of
`dispatch`, and `ServerErrorMiddleware` sends the `Exception` handler's
500 response directly — it never passes the middleware's header-setting
line. The handler still sees the correlation id, because the middleware's
write to `request.state` went into the shared ASGI scope, and the
`app.state` writes happened before `call_next`. -/

/-- What a route handler does with a request: return a response or raise
one of the four exception kinds. -/
inductive RouteOutcome where
  | success (resp : Response)
  | raisesHTTP (e : HTTPException)
  | raisesApp (e : AppException)
  | raisesValidation (e : ValidationError)
  | raisesGeneric (e : GenericExc)

/-- The outcome is an exception, not a normal response. -/
def RouteOutcome.isRaise : RouteOutcome → Bool
  | RouteOutcome.success _ => false
  | _ => true

/-- The outcome is a generic unhandled exception (the kind only the
outermost `ServerErrorMiddleware` handles). -/
def RouteOutcome.isGenericRaise : RouteOutcome → Bool
  | RouteOutcome.raisesGeneric _ => true
  | _ => false

/-- A handler's `JSONResponse` as a raw response (FastAPI adds no extra
headers of interest here). -/
def JSONResponse.toResponse (j : JSONResponse) : Response :=
  { status_code := j.status_code, headers := [], body := some j.content }

/-- The stack below the middleware (`ExceptionMiddleware` plus the route):
run the route; a typed exception is answered by its registered handler,
but a generic `Exception` has no handler at this layer and propagates. -/
def runInnerHandlers (route : Request → RouteOutcome) (req : Request) (app : AppState) :
    Except GenericExc (Response × AppState) :=
  match route req with
  | RouteOutcome.success r => Except.ok (r, app)
  | RouteOutcome.raisesHTTP e =>
    let (j, app') := http_exception_handler req app e
    Except.ok (j.toResponse, app')
  | RouteOutcome.raisesApp e =>
    let (j, app') := app_exception_handler req app e
    Except.ok (j.toResponse, app')
  | RouteOutcome.raisesValidation e =>
    let (j, app') := validation_exception_handler req app e
    Except.ok (j.toResponse, app')
  | RouteOutcome.raisesGeneric e => Except.error e

/-- One full request through the real stack: `ServerErrorMiddleware`
around `dispatch` around `ExceptionMiddleware` around the route. When an
exception escapes `dispatch`, the outermost layer runs
`generic_exception_handler` on the scope's request (whose state the
middleware already mutated) and the already-mutated `app.state`, and sends
that response directly, bypassing the middleware's header-setting line. -/
def processRequest (route : Request → RouteOutcome) (fresh : RandomBytes)
    (req : Request) (app : AppState) : Response × AppState :=
  match dispatch (runInnerHandlers route) fresh req app with
  | Except.ok (resp, app') => (resp, app')
  | Except.error e =>
    let (j, app') := generic_exception_handler (establishRequest fresh req)
      (markAppState (establishCorrelationId fresh req) app) e
    (j.toResponse, app')

/-- Setting the `X-Correlation-ID` header on a response, as the final step
of `dispatch` does. -/
def withCorrelationHeader (cid : String) (resp : Response) : Response :=
  { resp with headers := headerSet resp.headers "X-Correlation-ID" cid }

/-! ## Concrete fixtures

Values drawn from the repository's middleware tests
(`tests/infrastructure/test_observability_middleware.py`). -/

/-- Sixteen zero bytes for the UUID generator. -/
def fresh0 : RandomBytes := ⟨0, 0, 0, 0, 0, 0, 0, 0, 0, 0, 0, 0, 0, 0, 0, 0⟩

/-- A test-client URL whose path is `/items`. -/
def url0 : URL := ⟨"http", "testserver", "/items", ""⟩

/-- An application state where none of the stub attributes exist yet. -/
def app0 : AppState := ⟨none, none, none⟩

/-- A request that supplies its own `X-Correlation-ID` header. -/
def reqHdr : Request := ⟨[("X-Correlation-ID", "abc")], url0, ⟨none⟩⟩

/-- A request without an `X-Correlation-ID` header. -/
def reqNoHdr : Request := ⟨[], url0, ⟨none⟩⟩

/-- A plain 200 response with no headers and no JSON error body. -/
def okResp : Response := ⟨200, [], none⟩

/-- The unhandled exception raised by the `/unhandled-exception` route. -/
def gexc0 : GenericExc := ⟨"Something went very wrong"⟩

/-- The `HTTPException(403, "Forbidden access")` of the tests. -/
def hexc0 : HTTPException := ⟨403, "Forbidden access"⟩

/-- The `AppException("Custom app error occurred", 400)` of the tests. -/
def aexc0 : AppException := ⟨"Custom app error occurred", 400⟩

/-- The validator's error object for a body missing the required field
`price`. -/
def missingPriceError : FieldError := ⟨"missing", ["body", "price"], "Field required"⟩

/-- A `ValidationError` whose error list reports the missing `price`. -/
def vexc0 : ValidationError := ⟨[missingPriceError]⟩

/-- A route that always raises `hexc0`. -/
def routeHTTP : Request → RouteOutcome := fun _ => RouteOutcome.raisesHTTP hexc0

/-- A route that always raises the generic exception `gexc0`. -/
def routeBoom : Request → RouteOutcome := fun _ => RouteOutcome.raisesGeneric gexc0

/-! ## Helper lemmas -/

@[simp] theorem headerGet_headerSet_self (hs : List (String × String)) (k v : String) :
    headerGet (headerSet hs k v) k = some v := by
  induction hs with
  | nil => simp [headerGet, headerSet]
  | cons p rest ih =>
    by_cases h : p.1 = k
    · simp [headerSet, headerGet, h]
    · simp [headerSet, headerGet, h, ih]

theorem headerGet_headerSet_ne (hs : List (String × String)) (k k' v : String)
    (h : k' ≠ k) : headerGet (headerSet hs k v) k' = headerGet hs k' := by
  induction hs with
  | nil => simp [headerGet, headerSet, Ne.symm h]
  | cons p rest ih =>
    by_cases hp : p.1 = k
    · simp [headerSet, headerGet, hp, Ne.symm h, h]
    · simp [headerSet, headerGet, hp, h, ih]

@[simp] theorem isHexChar_hexDigit (n : Nat) : isHexChar (hexDigit n) = true := by
  have h : n % 16 < 16 := Nat.mod_lt _ (by norm_num)
  unfold hexDigit isHexChar
  set m := n % 16 with hm
  interval_cases m <;> decide

theorem hexDigit_version (x : Nat) : hexDigit ((x % 16 + 64) / 16) = '4' := by
  have h : (x % 16 + 64) / 16 = 4 := by omega
  rw [h]; decide

theorem hexDigit_variant (x : Nat) :
    ([('8' : Char), '9', 'a', 'b'].contains (hexDigit ((x % 64 + 128) / 16))) = true := by
  have h4 : x % 64 / 16 < 4 := by omega
  have h : (x % 64 + 128) / 16 = x % 64 / 16 + 8 := by omega
  rw [h]
  set q := x % 64 / 16 with hq
  interval_cases q <;> decide

theorem isHexChar_four : isHexChar '4' = true := by decide

/-- Every string produced by `uuid4OfBytes` is a syntactically valid
version-4 UUID, whatever bytes the generator drew. -/
theorem uuid4OfBytes_isUUIDv4 (r : RandomBytes) : isUUIDv4 (uuid4OfBytes r) = true := by
  have hdata : (uuid4OfBytes r).data = uuidChars r := rfl
  simp only [isUUIDv4, isValidUUID, hdata, uuidChars, byteHexChars,
    List.cons_append, List.nil_append, List.append_assoc]
  rw [hexDigit_version r.b6]
  simp only [uuidShape, List.all_cons, List.all_nil, isHexChar_hexDigit,
    isHexChar_four, List.getD_cons_succ, List.getD_cons_zero,
    Bool.and_true, Bool.true_and, beq_self_eq_true, hexDigit_variant]

/-! ## Claim theorems -/

/-- C1 counterexample: a route raising a generic unhandled exception is
answered by the `Exception` handler on the outermost
`ServerErrorMiddleware`; that 500 response never passes the middleware's
header-setting line and carries no `X-Correlation-ID` header, refuting
the claimed header "on every response (success or failure)". -/
theorem generic_500_lacks_header :
    headerGet (processRequest routeBoom fresh0 reqHdr app0).1.headers "X-Correlation-ID" =
      none ∧
    (processRequest routeBoom fresh0 reqHdr app0).1.status_code = 500 := by
  exact ⟨rfl, rfl⟩

/-- C1 amended: a successful response, and every error response built by
the three typed handlers below the middleware, carries the established
correlation id in the `X-Correlation-ID` header; every error body
(including the generic handler's, which reads the id the middleware
stored in the shared request state) carries that id in `correlation_id`;
but the generic 500 sent directly by the outermost layer has no
`X-Correlation-ID` header at all. -/
theorem pipeline_correlation_consistency
    (route : Request → RouteOutcome) (fresh : RandomBytes) (req : Request) (app : AppState) :
    ((route (establishRequest fresh req)).isGenericRaise = false →
      headerGet (processRequest route fresh req app).1.headers "X-Correlation-ID" =
        some (establishCorrelationId fresh req)) ∧
    ((route (establishRequest fresh req)).isRaise = true →
      ∃ pd, (processRequest route fresh req app).1.body = some pd ∧
        pd.correlation_id = establishCorrelationId fresh req) ∧
    ((route (establishRequest fresh req)).isGenericRaise = true →
      headerGet (processRequest route fresh req app).1.headers "X-Correlation-ID" =
        none) := by
  unfold processRequest dispatch runInnerHandlers
  cases hr : route (establishRequest fresh req) with
  | success r =>
    refine ⟨fun _ => headerGet_headerSet_self _ _ _, ?_, ?_⟩
    · intro h; simp [RouteOutcome.isRaise] at h
    · intro h; simp [RouteOutcome.isGenericRaise] at h
  | raisesHTTP e =>
    refine ⟨fun _ => headerGet_headerSet_self _ _ _, fun _ => ⟨_, rfl, ?_⟩, ?_⟩
    · simp [http_exception_handler, getattrCorrelation, establishRequest]
    · intro h; simp [RouteOutcome.isGenericRaise] at h
  | raisesApp e =>
    refine ⟨fun _ => headerGet_headerSet_self _ _ _, fun _ => ⟨_, rfl, ?_⟩, ?_⟩
    · simp [app_exception_handler, getattrCorrelation, establishRequest]
    · intro h; simp [RouteOutcome.isGenericRaise] at h
  | raisesValidation e =>
    refine ⟨fun _ => headerGet_headerSet_self _ _ _, fun _ => ⟨_, rfl, ?_⟩, ?_⟩
    · simp [validation_exception_handler, getattrCorrelation, establishRequest]
    · intro h; simp [RouteOutcome.isGenericRaise] at h
  | raisesGeneric e =>
    refine ⟨?_, fun _ => ⟨_, rfl, ?_⟩, fun _ => rfl⟩
    · intro h; simp [RouteOutcome.isGenericRaise] at h
    · simp [generic_exception_handler, getattrCorrelation, establishRequest]

/-- C1 witness: with correlation id `abc`, the `HTTPException(403)` route
yields header and body `abc`, while the generic-exception route yields a
response with no `X-Correlation-ID` header whose body still carries
`abc`. -/
theorem pipeline_correlation_consistency_witness :
    headerGet (processRequest routeHTTP fresh0 reqHdr app0).1.headers "X-Correlation-ID" =
      some "abc" ∧
    (∃ pd, (processRequest routeHTTP fresh0 reqHdr app0).1.body = some pd ∧
      pd.correlation_id = "abc") ∧
    headerGet (processRequest routeBoom fresh0 reqHdr app0).1.headers "X-Correlation-ID" =
      none ∧
    (∃ pd, (processRequest routeBoom fresh0 reqHdr app0).1.body = some pd ∧
      pd.correlation_id = "abc") := by
  have hcid : establishCorrelationId fresh0 reqHdr = "abc" := by decide
  have h1 := pipeline_correlation_consistency routeHTTP fresh0 reqHdr app0
  have h2 := pipeline_correlation_consistency routeBoom fresh0 reqHdr app0
  refine ⟨?_, ?_, ?_, ?_⟩
  · have h := h1.1 (by rfl)
    rw [hcid] at h
    exact h
  · obtain ⟨pd, hb, hc⟩ := h1.2.1 (by rfl)
    exact ⟨pd, hb, by rw [hc, hcid]⟩
  · exact h2.2.2 (by rfl)
  · obtain ⟨pd, hb, hc⟩ := h2.2.1 (by rfl)
    exact ⟨pd, hb, by rw [hc, hcid]⟩

/-- C2: a present, non-empty `X-Correlation-ID` request header is echoed
exactly; with the header absent or empty the middleware uses the fresh
version-4 UUID string, stores it in request state, and the response header
carries it, a syntactically valid UUID. -/
theorem correlation_id_echo_or_fresh_uuid
    (fresh : RandomBytes) (req : Request) (app : AppState) (resp : Response) :
    (∀ X, headerGet req.headers "X-Correlation-ID" = some X → X ≠ "" →
      establishCorrelationId fresh req = X) ∧
    ((headerGet req.headers "X-Correlation-ID" = none ∨
        headerGet req.headers "X-Correlation-ID" = some "") →
      establishCorrelationId fresh req = uuid4OfBytes fresh ∧
      (establishRequest fresh req).state.correlation_id = some (uuid4OfBytes fresh) ∧
      isUUIDv4 (uuid4OfBytes fresh) = true) ∧
    (∃ r, dispatch (fun _ a => Except.ok (resp, a)) fresh req app =
        Except.ok (r, markAppState (establishCorrelationId fresh req) app) ∧
      headerGet r.headers "X-Correlation-ID" = some (establishCorrelationId fresh req)) := by
  refine ⟨?_, ?_, ?_⟩
  · intro X hX hne
    unfold establishCorrelationId
    rw [hX]
    simp [hne]
  · intro h
    have hgen : establishCorrelationId fresh req = uuid4OfBytes fresh := by
      unfold establishCorrelationId
      cases h with
      | inl h0 => rw [h0]
      | inr h0 => rw [h0]; simp
    refine ⟨hgen, ?_, uuid4OfBytes_isUUIDv4 fresh⟩
    unfold establishRequest
    rw [hgen]
  · exact ⟨_, rfl, headerGet_headerSet_self _ _ _⟩

/-- C2 witness: the header `abc` is echoed, and for the headerless request
the all-zero draw gives the valid v4 UUID string stored in request state. -/
theorem correlation_id_echo_or_fresh_uuid_witness :
    establishCorrelationId fresh0 reqHdr = "abc" ∧
    establishCorrelationId fresh0 reqNoHdr = uuid4OfBytes fresh0 ∧
    (establishRequest fresh0 reqNoHdr).state.correlation_id = some (uuid4OfBytes fresh0) ∧
    isUUIDv4 (uuid4OfBytes fresh0) = true := by
  have h1 := (correlation_id_echo_or_fresh_uuid fresh0 reqHdr app0 okResp).1 "abc"
    (by decide) (by decide)
  have h2 := (correlation_id_echo_or_fresh_uuid fresh0 reqNoHdr app0 okResp).2.1
    (Or.inl (by decide))
  exact ⟨h1, h2.1, h2.2.1, h2.2.2⟩

/-- C3 counterexample: the middleware adds no `traceparent` header. For a
request without one, and a downstream response without one, the outgoing
response has no `traceparent` header at all, while it does carry
`X-Correlation-ID`. -/
theorem no_traceparent_on_response :
    (dispatch (fun _ a => Except.ok (okResp, a)) fresh0 reqHdr app0).map
        (fun p => headerGet p.1.headers "traceparent") = Except.ok none ∧
    (dispatch (fun _ a => Except.ok (okResp, a)) fresh0 reqHdr app0).map
        (fun p => headerGet p.1.headers "X-Correlation-ID") = Except.ok (some "abc") := by
  exact ⟨rfl, rfl⟩

/-- C3 amended: `dispatch` sets exactly one response header,
`X-Correlation-ID`; it never adds or synthesizes a `traceparent` header, so
the response's `traceparent` is whatever the downstream response already
had, and status and body pass through unchanged. -/
theorem dispatch_sets_only_correlation_header
    (fresh : RandomBytes) (req : Request) (app app2 : AppState) (resp : Response) :
    ∃ r, dispatch (fun _ _ => Except.ok (resp, app2)) fresh req app = Except.ok (r, app2) ∧
      headerGet r.headers "X-Correlation-ID" = some (establishCorrelationId fresh req) ∧
      headerGet r.headers "traceparent" = headerGet resp.headers "traceparent" ∧
      r.status_code = resp.status_code ∧ r.body = resp.body := by
  refine ⟨_, rfl, headerGet_headerSet_self _ _ _, ?_, rfl, rfl⟩
  exact headerGet_headerSet_ne _ _ _ _ (by decide)

/-- C4 counterexample: an exception from the downstream stage passes
through `dispatch` unhandled; `dispatch` does not return a 500 response. -/
theorem dispatch_does_not_catch :
    dispatch (fun _ _ => Except.error gexc0) fresh0 reqHdr app0 = Except.error gexc0 := rfl

/-- C4 amended: `ObservabilityMiddleware.dispatch` has no `try`/`except`
around `call_next`: a downstream exception propagates out of `dispatch`
unchanged. The 500 problem-details response with type
`/errors/internal-server-error`, a generic detail and the established
correlation id in the body is produced by the registered
`generic_exception_handler`, not by the middleware. -/
theorem dispatch_propagates_and_handler_builds_500
    (fresh : RandomBytes) (req : Request) (app app2 : AppState) (e : GenericExc) :
    dispatch (fun _ _ => Except.error e) fresh req app = Except.error e ∧
    (generic_exception_handler (establishRequest fresh req) app2 e).1.status_code =
      HTTP_500_INTERNAL_SERVER_ERROR ∧
    (generic_exception_handler (establishRequest fresh req) app2 e).1.content.type =
      "/errors/internal-server-error" ∧
    (generic_exception_handler (establishRequest fresh req) app2 e).1.content.detail =
      Detail.str "An unexpected error occurred." ∧
    (generic_exception_handler (establishRequest fresh req) app2 e).1.content.correlation_id =
      establishCorrelationId fresh req := by
  refine ⟨rfl, rfl, rfl, rfl, ?_⟩
  simp [generic_exception_handler, getattrCorrelation, establishRequest]

/-- C5: the generic handler always answers 500 with type
`/errors/internal-server-error` (ending in `internal-server-error`) and the
fixed detail string `An unexpected error occurred.`, identically for every
exception — the response body is independent of the exception, so the raw
exception message never reaches the client. (Read this way because any
fixed non-empty string literally contains some possible exception message
as a substring, e.g. the empty one.) -/
theorem generic_handler_fixed_generic_detail
    (req : Request) (app : AppState) (exc : GenericExc) :
    (generic_exception_handler req app exc).1.status_code = 500 ∧
    (generic_exception_handler req app exc).1.content.type =
      "/errors/internal-server-error" ∧
    strEndsWith "/errors/internal-server-error" "internal-server-error" = true ∧
    (generic_exception_handler req app exc).1.content.detail =
      Detail.str "An unexpected error occurred." ∧
    (∀ exc' : GenericExc, (generic_exception_handler req app exc).1.content =
      (generic_exception_handler req app exc').1.content) := by
  exact ⟨rfl, rfl, by decide, rfl, fun _ => rfl⟩

/-- C6: the validation handler answers 422 with type
`/errors/validation-error` and passes `exc.errors()` through verbatim as
the detail list; in particular the fixture error list for a body missing
the required field `price` appears unchanged. -/
theorem validation_handler_verbatim_errors
    (req : Request) (app : AppState) (exc : ValidationError) :
    (validation_exception_handler req app exc).1.status_code =
      HTTP_422_UNPROCESSABLE_ENTITY ∧
    (validation_exception_handler req app exc).1.content.type =
      "/errors/validation-error" ∧
    strEndsWith "/errors/validation-error" "validation-error" = true ∧
    (validation_exception_handler req app exc).1.content.detail =
      Detail.fieldErrors exc.errors ∧
    (validation_exception_handler req app vexc0).1.content.detail =
      Detail.fieldErrors [missingPriceError] := by
  exact ⟨rfl, rfl, by decide, rfl, rfl⟩

/-- C7 counterexample: with no correlation id in request state, the
generic handler's body carries `N/A`, not the claimed `not-set`. -/
theorem generic_handler_na_fallback :
    (generic_exception_handler reqHdr app0 gexc0).1.content.correlation_id = "N/A" ∧
    ¬ (generic_exception_handler reqHdr app0 gexc0).1.content.correlation_id = "not-set" := by
  exact ⟨rfl, by decide⟩

/-- C7 amended: when request state has no correlation id, the HTTP,
application and validation handlers fall back to the sentinel `not-set`,
but the generic handler falls back to `N/A`. -/
theorem handlers_correlation_fallbacks
    (req : Request) (app : AppState) (h : req.state.correlation_id = none)
    (he : HTTPException) (ae : AppException) (ve : ValidationError) (ge : GenericExc) :
    (http_exception_handler req app he).1.content.correlation_id = "not-set" ∧
    (app_exception_handler req app ae).1.content.correlation_id = "not-set" ∧
    (validation_exception_handler req app ve).1.content.correlation_id = "not-set" ∧
    (generic_exception_handler req app ge).1.content.correlation_id = "N/A" := by
  refine ⟨?_, ?_, ?_, ?_⟩ <;>
    simp [http_exception_handler, app_exception_handler, validation_exception_handler,
      generic_exception_handler, getattrCorrelation, h]

/-- C7 witness: the fallbacks evaluated on a request whose state has no
correlation id. -/
theorem handlers_correlation_fallbacks_witness :
    (http_exception_handler reqHdr app0 hexc0).1.content.correlation_id = "not-set" ∧
    (app_exception_handler reqHdr app0 aexc0).1.content.correlation_id = "not-set" ∧
    (validation_exception_handler reqHdr app0 vexc0).1.content.correlation_id = "not-set" ∧
    (generic_exception_handler reqHdr app0 gexc0).1.content.correlation_id = "N/A" :=
  handlers_correlation_fallbacks reqHdr app0 rfl hexc0 aexc0 vexc0 gexc0

/-- C8 counterexample: the handlers set `instance` to `str(request.url)`,
the full URL, which differs from the request path. -/
theorem instance_is_full_url_cex :
    (generic_exception_handler reqHdr app0 gexc0).1.content.instance_ =
      "http://testserver/items" ∧
    reqHdr.url.path = "/items" ∧
    ¬ (generic_exception_handler reqHdr app0 gexc0).1.content.instance_ =
      reqHdr.url.path := by
  exact ⟨rfl, rfl, by decide⟩

/-- C8 amended: every error body's `instance` field equals the full
request URL `str(request.url)` (scheme, host, path and query), not the
bare request path. -/
theorem handlers_instance_full_url
    (req : Request) (app : AppState) (he : HTTPException) (ae : AppException)
    (ve : ValidationError) (ge : GenericExc) :
    (generic_exception_handler req app ge).1.content.instance_ = URL.toString req.url ∧
    (http_exception_handler req app he).1.content.instance_ = URL.toString req.url ∧
    (app_exception_handler req app ae).1.content.instance_ = URL.toString req.url ∧
    (validation_exception_handler req app ve).1.content.instance_ = URL.toString req.url := by
  exact ⟨rfl, rfl, rfl, rfl⟩

/-- C9 counterexample: the middleware writes process-wide `app.state` on an
ordinary request: starting from an application state without the
`logger_context` and `otel_propagated` attributes, after `dispatch` both
exist (`otel_propagated = True`), so shared mutable state beyond the
request and the response was written. -/
theorem dispatch_writes_app_state :
    app0.otel_propagated = none ∧ app0.logger_context = none ∧
    (dispatch (fun _ a => Except.ok (okResp, a)) fresh0 reqHdr app0).map (fun p => p.2) =
      Except.ok (markAppState "abc" app0) ∧
    ¬ markAppState "abc" app0 = app0 := by
  exact ⟨rfl, rfl, rfl, by decide⟩

/-- C9 amended: besides request state and the response,
`ObservabilityMiddleware.dispatch` writes exactly two process-wide
`app.state` fields on every request: `logger_context` (its
`correlation_id` key) and `otel_propagated` (set to `True`); it leaves
`last_error_log` unchanged. -/
theorem dispatch_app_state_frame
    (fresh : RandomBytes) (req : Request) (app : AppState) (resp : Response) :
    dispatch (fun _ a => Except.ok (resp, a)) fresh req app =
      Except.ok (withCorrelationHeader (establishCorrelationId fresh req) resp,
        markAppState (establishCorrelationId fresh req) app) ∧
    (markAppState (establishCorrelationId fresh req) app).last_error_log =
      app.last_error_log ∧
    (markAppState (establishCorrelationId fresh req) app).logger_context =
      some (headerSet (app.logger_context.getD []) "correlation_id"
        (establishCorrelationId fresh req)) ∧
    (markAppState (establishCorrelationId fresh req) app).otel_propagated = some true := by
  exact ⟨rfl, rfl, rfl, rfl⟩

/-- C10: `AppException` built with only a detail message defaults to
status 500, keeps the message in `detail`, and the application exception
handler maps it to a 500 response carrying that message. -/
theorem app_exception_default_500
    (d : String) (req : Request) (app : AppState) :
    (AppException.make d).status_code = HTTP_500_INTERNAL_SERVER_ERROR ∧
    (AppException.make d).detail = d ∧
    (app_exception_handler req app (AppException.make d)).1.status_code =
      HTTP_500_INTERNAL_SERVER_ERROR ∧
    (app_exception_handler req app (AppException.make d)).1.content.detail =
      Detail.str d ∧
    (app_exception_handler req app (AppException.make d)).1.content.status =
      HTTP_500_INTERNAL_SERVER_ERROR := by
  exact ⟨rfl, rfl, rfl, rfl, rfl⟩

end AINative
